import Mathlib

/-!
Verification of the aave-guard-mcp REST gateway (aave-concierge-api).

This file shallowly embeds the numeric and control-flow logic of the
repository in Lean 4 and proves properties of it.  Python ints become
`Int`/`Nat`; Python floats are idealised as exact rationals `ℚ` (the
specification itself states its formulas in exact decimal arithmetic);
`int(x)` truncation toward zero becomes `pyInt`; Python's `round`
(round-half-to-even) becomes `pyRound`; fallible chain reads become
`Option`-valued inputs (`none` = the call raised); HTTP error exits
become `Except ApiErr`.

Sources embedded: api/routes.py (supply, health, simulate endpoints),
utils.py (get_health_factor, amount_to_wei, format_token_amount,
get_token_allowance), oracle.py (get_asset_real_time_data).
-/

/-- Python `int(q)`: truncation toward zero (floor for nonnegative,
ceiling for negative values). -/
def pyInt (q : ℚ) : ℤ :=
  if 0 ≤ q then ⌊q⌋ else ⌈q⌉

/-- Round to nearest integer, ties to even: the rounding mode of
Python 3's built-in `round`. -/
def rne (q : ℚ) : ℤ :=
  if Int.fract q = 1/2 then
    (if ⌊q⌋ % 2 = 0 then ⌊q⌋ else ⌊q⌋ + 1)
  else
    round q

/-- Python `round(q, n)`: round to `n` decimal digits, ties to even. -/
def pyRound (q : ℚ) (n : ℕ) : ℚ :=
  ((rne (q * 10 ^ n) : ℤ) : ℚ) / 10 ^ n

lemma pyInt_of_nonneg {q : ℚ} (h : 0 ≤ q) : pyInt q = ⌊q⌋ := by
  simp [pyInt, h]

lemma abs_rne_sub_le (q : ℚ) : |(rne q : ℚ) - q| ≤ 1/2 := by
  unfold rne
  split
  · rename_i hfr
    have hq : q - (⌊q⌋ : ℚ) = 1/2 := by
      have := Int.self_sub_floor q
      rw [this, hfr]
    split
    · rw [abs_sub_comm, hq]
      norm_num [abs_le]
    · have : ((⌊q⌋ + 1 : ℤ) : ℚ) - q = 1/2 := by
        push_cast
        linarith
      rw [this]
      norm_num [abs_le]
  · rw [abs_sub_comm]
    exact abs_sub_round q

lemma abs_pyRound_sub_le (q : ℚ) (n : ℕ) :
    |pyRound q n - q| ≤ 1 / (2 * 10 ^ n) := by
  have h10 : (0:ℚ) < 10 ^ n := by positivity
  have hrw : pyRound q n - q = ((rne (q * 10 ^ n) : ℚ) - q * 10 ^ n) / 10 ^ n := by
    unfold pyRound
    field_simp
    ring
  rw [hrw, abs_div, abs_of_pos h10]
  have h1 : |(rne (q * 10 ^ n) : ℚ) - q * 10 ^ n| ≤ 1/2 := abs_rne_sub_le _
  have h2 : |(rne (q * 10 ^ n) : ℚ) - q * 10 ^ n| / 10 ^ n ≤ (1/2) / 10 ^ n :=
    (div_le_div_iff_of_pos_right h10).mpr h1
  calc |(rne (q * 10 ^ n) : ℚ) - q * 10 ^ n| / 10 ^ n
      ≤ (1/2) / 10 ^ n := h2
    _ = 1 / (2 * 10 ^ n) := by rw [div_div]

/-! ## Data model -/

/-- Error exits of the HTTP handlers (HTTPException in routes.py). -/
inductive ApiErr where
  | unsupportedAsset
  | amountTooLarge
  | upstreamFailure
  deriving DecidableEq

/-- Safety classification strings of the simulate endpoint:
`safe` = "safe ✅", `risky` = "risky ⚠️",
`insufficientCapacity` = "insufficient capacity ❌". -/
inductive Safety where
  | safe
  | risky
  | insufficientCapacity
  deriving DecidableEq

/-- Result of a health-factor simulation: the estimated health factor
after the action and the safety classification. -/
structure SimOutcome where
  hfAfter : ℚ
  safety : Safety
  deriving DecidableEq

/-- The six uint256 fields returned by the pool's
`getUserAccountData` view (contracts.py ABI). -/
structure AccountData where
  totalCollateralBase : ℕ
  totalDebtBase : ℕ
  availableBorrowsBase : ℕ
  currentLiquidationThreshold : ℕ
  ltv : ℕ
  healthFactor : ℕ
  deriving DecidableEq

/-- The action parameter of a simulate request. -/
inductive SimAction where
  | supply
  | borrow
  deriving DecidableEq

/-! ## utils.py -/

/-- utils.py `amount_to_wei` (lines 61-64): human amount times
`10 ** decimals`, truncated by Python `int()`.  No validation of the
amount is performed. -/
def amount_to_wei (amount : ℚ) (decimals : ℕ) : ℤ :=
  pyInt (amount * 10 ^ decimals)

/-- utils.py `format_token_amount` (lines 55-58): base units divided by
`10 ** decimals`, rounded to 6 decimal places. -/
def format_token_amount (amount_wei : ℤ) (decimals : ℕ) : ℚ :=
  pyRound ((amount_wei : ℚ) / 10 ^ decimals) 6

/-- utils.py `get_health_factor` (lines 29-35): on a successful
account-data call, `round(data[5] / 1e18 if data[5] else 100.0, 3)`;
when the call raises, the except branch returns the fallback 100.0. -/
def get_health_factor (accountCall : Option AccountData) : ℚ :=
  match accountCall with
  | none => 100
  | some d => pyRound (if d.healthFactor ≠ 0 then (d.healthFactor : ℚ) / 10 ^ 18 else 100) 3

/-- utils.py `get_token_allowance` (lines 117-136): the ERC-20
`allowance` call result, with the except branch returning 0 when the
read raises. -/
def get_token_allowance (allowanceCall : Option ℕ) : ℕ :=
  allowanceCall.getD 0

/-! ## oracle.py -/

/-- The ten fields of the data provider's
`getReserveConfigurationData` view (oracle.py ABI). -/
structure ReserveConfigData where
  decimals : ℕ
  ltv : ℕ
  liquidationThreshold : ℕ
  liquidationBonus : ℕ
  reserveFactor : ℕ
  usageAsCollateralEnabled : Bool
  borrowingEnabled : Bool
  stableBorrowRateEnabled : Bool
  isActive : Bool
  isFrozen : Bool
  deriving DecidableEq

/-- Processed per-asset configuration produced by oracle.py
`get_asset_real_time_data`. -/
structure AssetRealTimeData where
  decimals : ℕ
  ltv : ℚ
  liquidation_threshold : ℚ
  liquidation_bonus : ℚ
  reserve_factor : ℚ
  usage_as_collateral : Bool
  borrowing_enabled : Bool
  stable_borrow_enabled : Bool
  is_active : Bool
  is_frozen : Bool
  deriving DecidableEq

/-- oracle.py `get_asset_real_time_data` (lines 139-161), success path:
ltv, liquidation threshold, bonus and reserve factor are each divided
by 10000 (basis points to decimal fraction). -/
def assetRealTimeDataOf (c : ReserveConfigData) : AssetRealTimeData where
  decimals := c.decimals
  ltv := (c.ltv : ℚ) / 10000
  liquidation_threshold := (c.liquidationThreshold : ℚ) / 10000
  liquidation_bonus := (c.liquidationBonus : ℚ) / 10000
  reserve_factor := (c.reserveFactor : ℚ) / 10000
  usage_as_collateral := c.usageAsCollateralEnabled
  borrowing_enabled := c.borrowingEnabled
  stable_borrow_enabled := c.stableBorrowRateEnabled
  is_active := c.isActive
  is_frozen := c.isFrozen

/-- oracle.py `get_asset_real_time_data` including the except branch:
`none` when the `getReserveConfigurationData` call raises. -/
def get_asset_real_time_data (configCall : Option ReserveConfigData) :
    Option AssetRealTimeData :=
  configCall.map assetRealTimeDataOf

/-! ## routes.py simulate: numeric core -/

/-- routes.py `simulate` lines 368-379: of the three debug
interpretations of the raw `currentLiquidationThreshold` from
`getUserAccountData`, the one assigned to `weighted_avg_lt` and used
downstream is `lt_interpretation_2 = raw / 1e4` (basis points). -/
def simulateWeightedAvgLT (rawCurrentLT : ℕ) : ℚ :=
  (rawCurrentLT : ℚ) / 10000

/-- The discarded Ray-format reading `lt_interpretation_1 = raw / 1e27`
of routes.py line 368 (computed for debug output only, never used in
the health-factor formula). -/
def rayInterpretationLT (rawCurrentLT : ℕ) : ℚ :=
  (rawCurrentLT : ℚ) / 10 ^ 27

/-- routes.py `simulate` lines 462-469 and 515-522 (identical in both
branches): human amount → token wei (`int`) → human again → USD value
at the oracle price → base-currency units (`int`, 8 decimals). -/
def tokenValueBase (amount price : ℚ) (decimals : ℕ) : ℤ :=
  let token_amount_wei := pyInt (amount * 10 ^ decimals)
  let token_amount_human := (token_amount_wei : ℚ) / 10 ^ decimals
  let token_value_usd := token_amount_human * price
  pyInt (token_value_usd * 10 ^ 8)

/-- routes.py `simulate` lines 566-569: cap the estimated health factor
at 999.999, round it to 3 decimal places, then classify safety as safe
when the rounded value is at least 1.1 and risky otherwise. -/
def finalizeOutcome (hf : ℚ) : SimOutcome :=
  let capped := min hf (999999/1000)
  let rounded := pyRound capped 3
  { hfAfter := rounded
    safety := if 11/10 ≤ rounded then Safety.safe else Safety.risky }

/-- routes.py `simulate` line 491: `new_total_collateral =
total_collateral_base + token_value_base`. -/
def supplyNewTotalCollateral (totalCollateralBase valueBase : ℤ) : ℤ :=
  totalCollateralBase + valueBase

/-- routes.py `simulate` line 492: the supply branch leaves the total
debt unchanged, `new_total_debt = total_debt_base`. -/
def supplyNewTotalDebt (totalDebtBase : ℤ) : ℤ :=
  totalDebtBase

/-- routes.py `simulate` lines 484-490: `new_weighted_collateral =
total_collateral_base * weighted_avg_lt + token_value_base * token_lt`. -/
def supplyNewWeightedCollateral (totalCollateralBase : ℤ) (weightedAvgLT tokenLT : ℚ)
    (valueBase : ℤ) : ℚ :=
  (totalCollateralBase : ℚ) * weightedAvgLT + (valueBase : ℚ) * tokenLT

/-- routes.py `simulate` line 495: `new_weighted_avg_lt =
new_weighted_collateral / new_total_collateral if new_total_collateral
> 0 else 0`. -/
def supplyNewWeightedAvgLT (totalCollateralBase : ℤ) (weightedAvgLT tokenLT : ℚ)
    (valueBase : ℤ) : ℚ :=
  if 0 < supplyNewTotalCollateral totalCollateralBase valueBase then
    supplyNewWeightedCollateral totalCollateralBase weightedAvgLT tokenLT valueBase /
      ((supplyNewTotalCollateral totalCollateralBase valueBase : ℤ) : ℚ)
  else 0

/-- routes.py `simulate` supply branch, lines 480-508 followed by the
common finalization at 566-569: recompute the weighted liquidation
threshold, keep the debt, and either return the no-debt value 100.0 or
apply the Aave health-factor formula. -/
def supplySim (totalCollateralBase totalDebtBase : ℤ) (weightedAvgLT tokenLT : ℚ)
    (valueBase : ℤ) : SimOutcome :=
  let new_total_collateral := supplyNewTotalCollateral totalCollateralBase valueBase
  let new_total_debt := supplyNewTotalDebt totalDebtBase
  let new_weighted_avg_lt := supplyNewWeightedAvgLT totalCollateralBase weightedAvgLT tokenLT valueBase
  let hf_after : ℚ :=
    if new_total_debt = 0 then 100
    else ((new_total_collateral : ℚ) * new_weighted_avg_lt) / (new_total_debt : ℚ)
  finalizeOutcome hf_after

/-- routes.py `simulate` line 557: `new_total_debt = total_debt_base +
borrow_value_base`. -/
def borrowNewTotalDebt (totalDebtBase borrowValueBase : ℤ) : ℤ :=
  totalDebtBase + borrowValueBase

/-- routes.py `simulate` borrow branch, lines 536-564 followed by the
common finalization at 566-569: an early return with health factor 0
and the insufficient-capacity classification when the borrow value
exceeds the available capacity (line 537), otherwise unchanged
collateral and weighted threshold, debt increased by the borrow value,
and the Aave health-factor formula. -/
def borrowSim (totalCollateralBase totalDebtBase availableBorrowsBase : ℤ)
    (weightedAvgLT : ℚ) (borrowValueBase : ℤ) : SimOutcome :=
  if availableBorrowsBase < borrowValueBase then
    { hfAfter := 0, safety := Safety.insufficientCapacity }
  else
    let new_weighted_avg_lt := weightedAvgLT
    let new_total_collateral := totalCollateralBase
    let new_total_debt := borrowNewTotalDebt totalDebtBase borrowValueBase
    let hf_after : ℚ :=
      if new_total_debt = 0 then 100
      else ((new_total_collateral : ℚ) * new_weighted_avg_lt) / (new_total_debt : ℚ)
    finalizeOutcome hf_after

/-! ## routes.py: endpoint control flow -/

/-- External contract calls an endpoint can attempt, in source order. -/
inductive ExtCall where
  | getPool
  | getUserAccountData
  deriving DecidableEq

/-- routes.py `simulate` lines 323-326: reject the request with a 400
error when `abs(req.amount)` exceeds the 1e9 sanity ceiling; no other
amount validation is performed. -/
def simulateAmountCheck (amount : ℚ) : Except ApiErr Unit :=
  if 1000000000 < |amount| then Except.error ApiErr.amountTooLarge
  else Except.ok ()

/-- routes.py `simulate` lines 329-338: with an explicit action the
amount is used as given; with no action, a positive amount means
supply and otherwise the request is treated as a deprecated borrow of
the absolute amount. -/
def resolveAction (action : Option SimAction) (amount : ℚ) : SimAction × ℚ :=
  match action with
  | some a => (a, amount)
  | none => if 0 < amount then (SimAction.supply, amount) else (SimAction.borrow, |amount|)

/-- routes.py `simulate` lines 315-326, with the contract calls it
attempts recorded in order: `init_web3` builds a provider without any
chain call, then `get_pool_contract` resolves the pool address through
a `getPool()` contract call (contracts.py lines 84-97), and only then
is the token checked against the configured assets, followed by the
amount ceiling check.  `token` stands for the already-uppercased
`req.token.upper()`. -/
def simulateEntry (assets : List String) (poolCall : Option ℕ) (token : String)
    (amount : ℚ) : List ExtCall × Except ApiErr Unit :=
  match poolCall with
  | none => ([ExtCall.getPool], Except.error ApiErr.upstreamFailure)
  | some _ =>
    if token ∈ assets then
      match simulateAmountCheck amount with
      | Except.error e => ([ExtCall.getPool], Except.error e)
      | Except.ok _ => ([ExtCall.getPool], Except.ok ())
    else ([ExtCall.getPool], Except.error ApiErr.unsupportedAsset)

/-- routes.py `supply` lines 35-43, with attempted contract calls
recorded in order: `init_web3` makes no chain call, the token
(`req.token.upper()`) is checked against the configured assets first,
and only on the success path does `get_pool_address` perform the
`getPool()` contract call. -/
def supplyEntry (assets : List String) (token : String) :
    List ExtCall × Except ApiErr Unit :=
  if token ∈ assets then ([ExtCall.getPool], Except.ok ())
  else ([], Except.error ApiErr.unsupportedAsset)

/-- Response of the health endpoint. -/
structure HealthResponse where
  health_factor : ℚ
  safe_to_borrow : Bool
  deriving DecidableEq

/-- routes.py `health` lines 204-211: resolving the pool address is an
unguarded `getPool()` call, so its failure fails the request; the
account-data call itself is made inside `get_health_factor`, whose
except branch substitutes the fallback 100.0, and the response reports
that value together with `safe_to_borrow = hf >= 1.1`. -/
def healthEndpoint (poolCall : Option ℕ) (accountCall : Option AccountData) :
    Except ApiErr HealthResponse :=
  match poolCall with
  | none => Except.error ApiErr.upstreamFailure
  | some _ =>
    let hf := get_health_factor accountCall
    Except.ok { health_factor := hf, safe_to_borrow := decide (11/10 ≤ hf) }

/-- The native-token placeholder address compared against in routes.py
`supply` line 48. -/
def nativeTokenPlaceholder : String :=
  "0xEeeeeEeeeEeEeeEeEeEeeEEEeeeeEeeeeEee"

/-- The unsigned ERC-20 approval transaction built by utils.py
`build_approval_transaction`, keyed by its inputs. -/
structure ApprovalTx where
  owner : String
  token : String
  spender : String
  amount : ℤ
  deriving DecidableEq

/-- routes.py `supply` lines 46-53: an approval transaction is built
exactly when the underlying token is not the native placeholder and
the allowance read for (user, pool) — 0 when the read raises — is
strictly below the requested base-unit amount. -/
def supplyApprovalTx (underlying : String) (allowanceCall : Option ℕ)
    (amountWei : ℤ) (user pool : String) : Option ApprovalTx :=
  if underlying = nativeTokenPlaceholder then none
  else if (get_token_allowance allowanceCall : ℤ) < amountWei then
    some { owner := user, token := underlying, spender := pool, amount := amountWei }
  else none

/-! ## Definition taken from the specification (for claim C3) -/

/-- Written from the spec words of section 4.3, supply step 2:
`newWeightedLT = (totalCollateralBase × currentWeightedLT + valueBase
× tokenLT) / (totalCollateralBase + valueBase)`, with the quotient
taken as 0 when the resulting total collateral is zero. -/
def specNewWeightedLT (totalCollateralBase : ℤ) (weightedAvgLT tokenLT : ℚ)
    (valueBase : ℤ) : ℚ :=
  if totalCollateralBase + valueBase = 0 then 0
  else ((totalCollateralBase : ℚ) * weightedAvgLT + (valueBase : ℚ) * tokenLT) /
    ((totalCollateralBase + valueBase : ℤ) : ℚ)

/-! ## Evaluation lemmas for the embedded Python numerics -/

lemma pyInt_intCast (k : ℤ) : pyInt (k : ℚ) = k := by
  unfold pyInt
  split
  · exact Int.floor_intCast k
  · exact Int.ceil_intCast k

lemma rne_intCast (k : ℤ) : rne (k : ℚ) = k := by
  unfold rne
  rw [Int.fract_intCast]
  norm_num

lemma pyRound_intCast (k : ℤ) (n : ℕ) : pyRound (k : ℚ) n = k := by
  unfold pyRound
  have h : (k : ℚ) * 10 ^ n = ((k * 10 ^ n : ℤ) : ℚ) := by push_cast; ring
  rw [h, rne_intCast]
  have h10 : ((10 : ℚ) ^ n) ≠ 0 := by positivity
  push_cast
  field_simp

lemma finalizeOutcome_intCast (k : ℤ) (hcap : (k : ℚ) ≤ 999999/1000) :
    finalizeOutcome (k : ℚ) =
      { hfAfter := (k : ℚ),
        safety := if 11/10 ≤ (k : ℚ) then Safety.safe else Safety.risky } := by
  simp only [finalizeOutcome]
  rw [min_eq_left hcap, pyRound_intCast]

lemma finalizeOutcome_safety_iff (h : ℚ) :
    (finalizeOutcome h).safety = Safety.safe ↔ 11/10 ≤ (finalizeOutcome h).hfAfter := by
  simp only [finalizeOutcome]
  split
  · rename_i hc
    simp [hc]
  · rename_i hc
    simp [hc]

/-! ## Claims -/

/-- C1, counterexample: a concrete supply simulation on a zero-debt
account returns estimated health factor 100, not the cap 999.999, so
the claim that the value is 999.999 is false. -/
theorem c1_counterexample :
    (supplySim 10000 0 (17/20) (4/5) 5000).hfAfter = 100 ∧
    (supplySim 10000 0 (17/20) (4/5) 5000).hfAfter ≠ 999999/1000 := by
  have h : supplySim 10000 0 (17/20) (4/5) 5000 = { hfAfter := 100, safety := Safety.safe } := by
    simp only [supplySim, supplyNewTotalDebt]
    norm_num
    have h100 : (100 : ℚ) = ((100 : ℤ) : ℚ) := by norm_num
    rw [h100, finalizeOutcome_intCast 100 (by norm_num)]
    norm_num
  rw [h]
  norm_num

/-- C1 (amended): for every supply simulation on an account whose total
debt is zero, the returned estimated health factor after the action is
the fixed no-debt value 100.0 (which the 999.999 cap leaves unchanged),
and the safety classification is safe, regardless of the supplied
amount, token price, decimals, or existing collateral. -/
theorem c1_supply_zero_debt_hf (tc : ℤ) (wlt tlt : ℚ) (amount price : ℚ) (d : ℕ) :
    supplySim tc 0 wlt tlt (tokenValueBase amount price d) =
      { hfAfter := 100, safety := Safety.safe } := by
  simp only [supplySim, supplyNewTotalDebt]
  norm_num
  have h100 : (100 : ℚ) = ((100 : ℤ) : ℚ) := by norm_num
  rw [h100, finalizeOutcome_intCast 100 (by norm_num)]
  norm_num

/-- C2: when the base-currency borrow value exceeds the snapshot's
available-borrow capacity, the borrow simulation returns health factor
0 with the insufficient-capacity classification, and the result does
not depend on the collateral or the weighted liquidation threshold:
the capacity check is decided before, and instead of, the
health-factor formula. -/
theorem c2_borrow_insufficient_capacity (tc td avail : ℤ) (wlt : ℚ) (vb : ℤ)
    (h : avail < vb) :
    borrowSim tc td avail wlt vb = { hfAfter := 0, safety := Safety.insufficientCapacity } ∧
    (∀ tc2 : ℤ, ∀ wlt2 : ℚ, borrowSim tc2 td avail wlt2 vb = borrowSim tc td avail wlt vb) := by
  constructor
  · simp only [borrowSim]
    rw [if_pos h]
  · intro tc2 wlt2
    simp only [borrowSim]
    rw [if_pos h, if_pos h]

/-- C2, witness at capacity 100 and borrow value 200. -/
theorem c2_witness :
    (100 : ℤ) < 200 ∧
    borrowSim 10000 5000 100 (4/5) 200 =
      { hfAfter := 0, safety := Safety.insufficientCapacity } :=
  ⟨by norm_num, (c2_borrow_insufficient_capacity 10000 5000 100 (4/5) 200 (by norm_num)).1⟩

/-- C3, counterexample: the code guards the weighted-threshold quotient
with `new_total_collateral > 0`, not `== 0` as the claim states, and a
negative supply value (negative amounts pass validation) makes the two
differ: at collateral 0, weighted LT 0, token LT 0.8 and value -1000,
the code yields 0 while the claimed formula yields 0.8. -/
theorem c3_counterexample :
    supplyNewWeightedAvgLT 0 0 (4/5) (-1000) = 0 ∧
    specNewWeightedLT 0 0 (4/5) (-1000) = 4/5 ∧
    supplyNewWeightedAvgLT 0 0 (4/5) (-1000) ≠ specNewWeightedLT 0 0 (4/5) (-1000) := by
  have h1 : supplyNewWeightedAvgLT 0 0 (4/5) (-1000) = 0 := by
    simp only [supplyNewWeightedAvgLT, supplyNewTotalCollateral, supplyNewWeightedCollateral]
    norm_num
  have h2 : specNewWeightedLT 0 0 (4/5) (-1000) = 4/5 := by
    simp only [specNewWeightedLT]
    norm_num
  refine ⟨h1, h2, ?_⟩
  rw [h1, h2]
  norm_num

/-- C3 (amended): whenever the resulting total collateral is
nonnegative (in particular for every nonnegative supply value), the new
weighted-average liquidation threshold computed by the supply branch
equals the spec formula `(totalCollateralBase × currentWeightedLT +
valueBase × tokenLT) / (totalCollateralBase + valueBase)` with the
quotient taken as 0 at zero resulting collateral; the new total
collateral is the old total plus the value; and the supply branch
leaves the total debt unchanged. -/
theorem c3_supply_update (tc td : ℤ) (wlt tlt : ℚ) (vb : ℤ)
    (h : 0 ≤ tc + vb) :
    supplyNewWeightedAvgLT tc wlt tlt vb = specNewWeightedLT tc wlt tlt vb ∧
    supplyNewTotalCollateral tc vb = tc + vb ∧
    supplyNewTotalDebt td = td := by
  refine ⟨?_, rfl, rfl⟩
  unfold supplyNewWeightedAvgLT specNewWeightedLT supplyNewTotalCollateral supplyNewWeightedCollateral
  rcases lt_or_eq_of_le h with hpos | hz
  · rw [if_pos hpos, if_neg (by omega)]
  · rw [if_neg (by omega), if_pos (by omega)]

/-- C3, witness at collateral 10000, value 5000. -/
theorem c3_witness :
    (0 : ℤ) ≤ 10000 + 5000 ∧
    supplyNewWeightedAvgLT 10000 (17/20) (4/5) 5000 =
      specNewWeightedLT 10000 (17/20) (4/5) 5000 ∧
    supplyNewTotalCollateral 10000 5000 = 15000 :=
  ⟨by norm_num, (c3_supply_update 10000 77 (17/20) (4/5) 5000 (by norm_num)).1,
    by norm_num [supplyNewTotalCollateral]⟩

/-- C4: a borrow simulation within capacity leaves collateral and
weighted threshold unchanged (the formula uses the original
`totalCollateralBase` and `weightedAvgLT`), sets the new debt to the
old debt plus the borrow value, and returns the health factor
`(collateral × weightedLT) / newDebt` capped at 999.999 and rounded to
3 decimal places, classified safe exactly when the rounded result is
at least 1.1; in particular collateral 10000, debt 5000, weighted LT
0.80 and a borrow worth 3000 base units yield health factor 1.0,
classified risky. -/
theorem c4_borrow_within_capacity (tc td avail : ℤ) (wlt : ℚ) (vb : ℤ)
    (hcap : vb ≤ avail) (hdebt : borrowNewTotalDebt td vb ≠ 0) :
    borrowSim tc td avail wlt vb =
      finalizeOutcome (((tc : ℚ) * wlt) / ((borrowNewTotalDebt td vb : ℤ) : ℚ)) ∧
    borrowNewTotalDebt td vb = td + vb ∧
    (borrowSim tc td avail wlt vb).hfAfter =
      pyRound (min (((tc : ℚ) * wlt) / ((td + vb : ℤ) : ℚ)) (999999/1000)) 3 ∧
    ((borrowSim tc td avail wlt vb).safety = Safety.safe ↔
      11/10 ≤ (borrowSim tc td avail wlt vb).hfAfter) ∧
    (borrowSim 10000 5000 10000 (4/5) 3000).hfAfter = 1 ∧
    (borrowSim 10000 5000 10000 (4/5) 3000).safety = Safety.risky := by
  have hbs : borrowSim tc td avail wlt vb =
      finalizeOutcome (((tc : ℚ) * wlt) / ((borrowNewTotalDebt td vb : ℤ) : ℚ)) := by
    simp only [borrowSim]
    rw [if_neg (not_lt.mpr hcap), if_neg hdebt]
  have hconc : borrowSim 10000 5000 10000 (4/5) 3000 =
      { hfAfter := 1, safety := Safety.risky } := by
    simp only [borrowSim, borrowNewTotalDebt]
    rw [if_neg (by norm_num)]
    norm_num
    have h1 : (1 : ℚ) = ((1 : ℤ) : ℚ) := by norm_num
    rw [h1, finalizeOutcome_intCast 1 (by norm_num)]
    norm_num
  refine ⟨hbs, rfl, ?_, ?_, ?_, ?_⟩
  · rw [hbs]
    rfl
  · rw [hbs]
    exact finalizeOutcome_safety_iff _
  · rw [hconc]
  · rw [hconc]

/-- C4, witness at collateral 10000, debt 5000, capacity 10000,
weighted LT 0.80 and borrow value 3000, the instance named by the
claim. -/
theorem c4_witness :
    (3000 : ℤ) ≤ 10000 ∧ borrowNewTotalDebt 5000 3000 ≠ 0 ∧
    (borrowSim 10000 5000 10000 (4/5) 3000).hfAfter = 1 ∧
    (borrowSim 10000 5000 10000 (4/5) 3000).safety = Safety.risky := by
  have h := c4_borrow_within_capacity 10000 5000 10000 (4/5) 3000
    (by norm_num) (by norm_num [borrowNewTotalDebt])
  exact ⟨by norm_num, by norm_num [borrowNewTotalDebt], h.2.2.2.2.1, h.2.2.2.2.2⟩

/-- C5: the raw liquidation-threshold and LTV values are brought into
the health-factor formula as basis points, divided by 10000: the
simulate endpoint assigns `weighted_avg_lt = raw / 1e4`, the data
provider processing divides ltv and liquidation threshold by 10000,
and for every nonzero raw value this differs from the Ray (1e27)
interpretation. -/
theorem c5_basis_points (raw : ℕ) (c : ReserveConfigData) :
    simulateWeightedAvgLT raw = (raw : ℚ) / 10000 ∧
    (assetRealTimeDataOf c).ltv = (c.ltv : ℚ) / 10000 ∧
    (assetRealTimeDataOf c).liquidation_threshold = (c.liquidationThreshold : ℚ) / 10000 ∧
    (raw ≠ 0 → simulateWeightedAvgLT raw ≠ rayInterpretationLT raw) := by
  refine ⟨rfl, rfl, rfl, ?_⟩
  intro hraw heq
  unfold simulateWeightedAvgLT rayInterpretationLT at heq
  have h1 : (raw : ℚ) ≠ 0 := Nat.cast_ne_zero.mpr hraw
  rw [div_eq_div_iff (by norm_num) (by norm_num)] at heq
  have h2 := mul_left_cancel₀ h1 heq
  norm_num at h2

/-- C5, witness at the raw basis-point value 8505 (85.05%). -/
theorem c5_witness :
    simulateWeightedAvgLT 8505 = (8505 : ℚ) / 10000 ∧
    simulateWeightedAvgLT 8505 ≠ rayInterpretationLT 8505 :=
  ⟨(c5_basis_points 8505 ⟨6, 7500, 8505, 10500, 1000, true, true, false, true, false⟩).1,
    (c5_basis_points 8505 ⟨6, 7500, 8505, 10500, 1000, true, true, false, true, false⟩).2.2.2
      (by norm_num)⟩

/-- C6, counterexample: the negative amount -5 passes the simulate
validation (only the 1e9 magnitude ceiling is checked), is
reinterpreted as a borrow of 5 when no action is given, and
amount_to_wei converts it to base units without raising, so the claim
that negative amounts fail with InvalidAmount before conversion is
false. -/
theorem c6_counterexample :
    simulateAmountCheck (-5) = Except.ok () ∧
    resolveAction none (-5) = (SimAction.borrow, 5) ∧
    amount_to_wei (-5) 6 = -5000000 := by
  refine ⟨rfl, ?_, ?_⟩
  · simp only [resolveAction]
    norm_num
  · unfold amount_to_wei
    have h : (-5 : ℚ) * 10 ^ 6 = ((-5000000 : ℤ) : ℚ) := by norm_num
    rw [h, pyInt_intCast]

/-- C6 (amended): the simulate endpoint rejects a request with the
amount-too-large error exactly when the absolute amount exceeds the 1e9
ceiling; a negative amount within the ceiling is not rejected — with
no explicit action it is reinterpreted as a deprecated borrow of the
absolute amount — and `amount_to_wei` performs no validation of its
input. -/
theorem c6_amount_validation (a : ℚ) :
    (simulateAmountCheck a = Except.error ApiErr.amountTooLarge ↔ 1000000000 < |a|) ∧
    (a < 0 → ¬ 1000000000 < |a| →
      simulateAmountCheck a = Except.ok () ∧
      resolveAction none a = (SimAction.borrow, -a)) := by
  constructor
  · unfold simulateAmountCheck
    split
    · rename_i hc
      simp [hc]
    · rename_i hc
      simp [hc]
  · intro hneg hle
    constructor
    · unfold simulateAmountCheck
      rw [if_neg hle]
    · simp only [resolveAction]
      rw [if_neg (not_lt.mpr (le_of_lt hneg)), abs_of_neg hneg]

/-- C6, witness at amount -5. -/
theorem c6_witness :
    simulateAmountCheck (-5) = Except.ok () ∧
    resolveAction none (-5) = (SimAction.borrow, -(-5)) :=
  (c6_amount_validation (-5)).2 (by norm_num) (by norm_num)

/-- C7, counterexample: with the pool address resolved but the
account-data call failing, the health endpoint answers 200 with the
fallback health factor 100.0 and safe_to_borrow true instead of
failing with an upstream error, so the claim is false. -/
theorem c7_counterexample :
    healthEndpoint (some 0) none =
      Except.ok { health_factor := 100, safe_to_borrow := true } := by
  simp only [healthEndpoint, get_health_factor]
  norm_num

/-- C7 (amended): when the account-data contract call fails,
`get_health_factor` swallows the exception and returns the fallback
100.0, and the health endpoint answers with health factor 100.0 and
safe_to_borrow true; the request fails with an upstream error only
when the pool-address resolution itself fails. -/
theorem c7_health_fallback (pa : ℕ) (ad : Option AccountData) :
    healthEndpoint (some pa) none =
      Except.ok { health_factor := 100, safe_to_borrow := true } ∧
    healthEndpoint none ad = Except.error ApiErr.upstreamFailure ∧
    get_health_factor none = 100 := by
  refine ⟨?_, rfl, rfl⟩
  simp only [healthEndpoint, get_health_factor]
  norm_num

/-- C8, counterexample: a simulate request for an unconfigured token
does return the unsupported-asset error, but only after the pool
address has been resolved through a `getPool()` contract call, so the
call trace at the error is nonempty and the claim that no contract
call is attempted first is false. -/
theorem c8_counterexample :
    simulateEntry ["USDC", "WETH"] (some 1) "FOO" 1 =
      ([ExtCall.getPool], Except.error ApiErr.unsupportedAsset) ∧
    [ExtCall.getPool] ≠ ([] : List ExtCall) := by
  constructor
  · simp [simulateEntry]
  · simp

/-- C8 (amended): a request naming a token that is not configured for
the network returns the unsupported-asset error; in the supply
endpoint this happens before any contract call, but in the simulate
endpoint the pool address is first resolved through a `getPool()`
contract call and the token check runs after it. -/
theorem c8_unsupported_token (assets : List String) (pa : ℕ) (token : String)
    (amount : ℚ) (h : token ∉ assets) :
    simulateEntry assets (some pa) token amount =
      ([ExtCall.getPool], Except.error ApiErr.unsupportedAsset) ∧
    supplyEntry assets token = ([], Except.error ApiErr.unsupportedAsset) := by
  constructor
  · simp only [simulateEntry]
    rw [if_neg h]
  · simp only [supplyEntry]
    rw [if_neg h]

/-- C8, witness for the token FOO on a network configured with USDC
only. -/
theorem c8_witness :
    simulateEntry ["USDC"] (some 1) "FOO" 2 =
      ([ExtCall.getPool], Except.error ApiErr.unsupportedAsset) ∧
    supplyEntry ["USDC"] "FOO" = ([], Except.error ApiErr.unsupportedAsset) :=
  c8_unsupported_token ["USDC"] 1 "FOO" 2 (by simp)

/-- C9: for nonnegative amounts within the 1e9 sanity ceiling and any
decimal count, conversion to base units truncates toward zero (the
result never exceeds `x · 10^d`), and converting back with
`format_token_amount` recovers the amount within the combined
truncation and 6-decimal rounding tolerance. -/
theorem c9_roundtrip (x : ℚ) (d : ℕ) (h0 : 0 ≤ x) (_hceil : x ≤ 1000000000) :
    ((amount_to_wei x d : ℤ) : ℚ) ≤ x * 10 ^ d ∧
    |format_token_amount (amount_to_wei x d) d - x| ≤ 1 / 10 ^ d + 1 / 2000000 := by
  have hx : 0 ≤ x * 10 ^ d := by positivity
  have hw : amount_to_wei x d = ⌊x * 10 ^ d⌋ := by
    unfold amount_to_wei
    exact pyInt_of_nonneg hx
  have h10 : (0:ℚ) < 10 ^ d := by positivity
  constructor
  · rw [hw]
    exact Int.floor_le _
  · have hfr : |(⌊x * 10 ^ d⌋ : ℚ) / 10 ^ d - x| ≤ 1 / 10 ^ d := by
      have heq : (⌊x * 10 ^ d⌋ : ℚ) / 10 ^ d - x =
          ((⌊x * 10 ^ d⌋ : ℚ) - x * 10 ^ d) / 10 ^ d := by
        field_simp
        ring
      rw [heq, abs_div, abs_of_pos h10]
      have hnum : |(⌊x * 10 ^ d⌋ : ℚ) - x * 10 ^ d| ≤ 1 := by
        rw [abs_sub_comm]
        have hsf : x * 10 ^ d - (⌊x * 10 ^ d⌋ : ℚ) = Int.fract (x * 10 ^ d) :=
          Int.self_sub_floor _
        rw [hsf, abs_of_nonneg (Int.fract_nonneg _)]
        exact le_of_lt (Int.fract_lt_one _)
      exact (div_le_div_iff_of_pos_right h10).mpr hnum
    have hpr := abs_pyRound_sub_le ((⌊x * 10 ^ d⌋ : ℚ) / 10 ^ d) 6
    unfold format_token_amount
    rw [hw]
    calc |pyRound ((⌊x * 10 ^ d⌋ : ℚ) / 10 ^ d) 6 - x|
        ≤ |pyRound ((⌊x * 10 ^ d⌋ : ℚ) / 10 ^ d) 6 - (⌊x * 10 ^ d⌋ : ℚ) / 10 ^ d| +
          |(⌊x * 10 ^ d⌋ : ℚ) / 10 ^ d - x| := abs_sub_le _ _ _
      _ ≤ 1 / (2 * 10 ^ 6) + 1 / 10 ^ d := add_le_add hpr hfr
      _ = 1 / 10 ^ d + 1 / 2000000 := by norm_num [add_comm]

/-- C9, witness at amount 1.5 with 6 decimals. -/
theorem c9_witness :
    (0 : ℚ) ≤ 3/2 ∧ (3/2 : ℚ) ≤ 1000000000 ∧
    |format_token_amount (amount_to_wei (3/2) 6) 6 - 3/2| ≤ 1 / 10 ^ 6 + 1 / 2000000 :=
  ⟨by norm_num, by norm_num, (c9_roundtrip (3/2) 6 (by norm_num) (by norm_num)).2⟩

/-- C10: the supply endpoint attaches an approval transaction exactly
when the underlying token is not the native placeholder and the
allowance read — 0 when the read fails — is strictly below the
requested base-unit amount; consequently, when the allowance read
fails and the requested amount is positive, the approval transaction
is always attached. -/
theorem c10_supply_approval (u : String) (ac : Option ℕ) (aw : ℤ) (user pool : String) :
    ((supplyApprovalTx u ac aw user pool).isSome = true ↔
      (u ≠ nativeTokenPlaceholder ∧ (get_token_allowance ac : ℤ) < aw)) ∧
    (ac = none → 0 < aw → u ≠ nativeTokenPlaceholder →
      supplyApprovalTx u ac aw user pool =
        some { owner := user, token := u, spender := pool, amount := aw }) := by
  constructor
  · unfold supplyApprovalTx
    split
    · rename_i hu
      simp [hu]
    · rename_i hu
      split
      · rename_i hlt
        simp [hu, hlt]
      · rename_i hlt
        simp [hu, hlt]
  · intro hac haw hu
    subst hac
    unfold supplyApprovalTx
    rw [if_neg hu, if_pos]
    show (get_token_allowance none : ℤ) < aw
    simpa [get_token_allowance] using haw

/-- C10, witness: failed allowance read, positive amount, non-native
token. -/
theorem c10_witness :
    supplyApprovalTx "0xToken" none 5 "0xUser" "0xPool" =
      some { owner := "0xUser", token := "0xToken", spender := "0xPool", amount := 5 } :=
  (c10_supply_approval "0xToken" none 5 "0xUser" "0xPool").2 rfl (by norm_num)
    (by simp [nativeTokenPlaceholder])
